import Mathlib

/-!
# Verification of the facepy Graph API client core

A shallow embedding of `facepy/graph_api.py` and `facepy/exceptions.py`:
the response parser (`GraphAPI._parse`), the dispatcher (`load` inside
`GraphAPI._query`), pagination (`paginate`), option normalization, the
façade operations `get` / `post` / `delete`, and the batch demultiplexer
(`GraphAPI.batch`).

External collaborators are modelled as parameters, following the
repository's own boundary:
* the JSON decoder (`json.loads`) is a function `dec : String → Option JValue`
  (`none` models a `ValueError` on invalid input);
* the HTTP transport (`requests.session().request`) is an oracle giving the
  outcome of the k-th HTTP exchange of a session, indexed so that distinct
  attempts of a retry loop may observe distinct responses.

Python values appearing in responses are modelled by `JValue`; Python
exceptions that the library code can raise are modelled by `PyExc`.
-/

namespace Facepy

/-- Decoded JSON values as produced by `json.loads`: null, booleans, numbers
(modelled as integers; no claim depends on non-integral numerics), strings,
arrays and objects.  Objects are association lists with the keys of a Python
dict, assumed unique. -/
inductive JValue where
  | null : JValue
  | bool : Bool → JValue
  | num : Int → JValue
  | str : String → JValue
  | arr : List JValue → JValue
  | obj : List (String × JValue) → JValue

/-- Python truthiness (`if not response:`, `while url:`) of a decoded value:
`None`, `False`, `0`, `""`, `[]` and `{}` are falsy, everything else truthy. -/
def jTruthy : JValue → Bool
  | .null => false
  | .bool b => b
  | .num n => n != 0
  | .str s => s.length != 0
  | .arr xs => !xs.isEmpty
  | .obj fields => !fields.isEmpty

/-- Whether a typed error is `OAuthError` or its base class `FacebookError`
(exceptions.py lines 5-15): `OAuthError` subclasses `FacebookError` and adds
no behaviour, so an error value is one of the two kinds. -/
inductive FbKind where
  | facebook : FbKind
  | oauth : FbKind
deriving DecidableEq

/-- A constructed `FacebookError` / `OAuthError` instance: `__init__` stores
the message (via `Exception.__init__`) and the code.  Both come out of
`dict.get`, so either may be Python `None` (modelled by `Option.none`) and the
message need not be a string. -/
structure FbError where
  kind : FbKind
  message : Option JValue
  code : Option JValue

/-- The outcome of `GraphAPI._parse` when it returns normally: the raw input
text (body not valid JSON), a decoded structured value, or a typed error
instance returned -- not raised -- as data. -/
inductive ParseResult where
  | raw : String → ParseResult
  | value : JValue → ParseResult
  | err : FbError → ParseResult

/-- Python exceptions the embedded code can raise.

`httpError` is `facepy.exceptions.HTTPError`.  graph_api.py never imports it
(line 3 imports only `FacebookError` and `OAuthError`) and `GraphAPI` defines
no such attribute, so the `raise self.HTTPError(...)` statements at lines 171
and 187 instead raise `attributeError "HTTPError"`; the arm exists to state
that no `HTTPError` is ever produced. -/
inductive PyExc where
  | httpError : String → PyExc
  | attributeError : String → PyExc
  | typeError : String → PyExc
  | keyError : String → PyExc
  | fbError : FbError → PyExc

/-- The Python comparison `error.get('type') == "OAuthException"` at
graph_api.py line 256: true exactly when the looked-up value is that string
(Python `==` between a non-string JSON value and a `str` is `False`). -/
def isOAuthType : Option JValue → Bool
  | some (.str s) => s == "OAuthException"
  | _ => false

namespace GraphAPI

/-- graph_api.py lines 227-273, `GraphAPI._parse`.  `dec` is the external JSON
decoder; `dec data = none` models `json.loads` raising `ValueError`, upon
which the raw text is returned.  A decoded dict is inspected for an `error`
key (whose value the source immediately treats as a dict via `error.get`;
any other value raises `AttributeError`, the `.error` arm here), then for the
legacy `error_msg` key; anything else is returned as-is. -/
def _parse (dec : String → Option JValue) (data : String) :
    Except PyExc ParseResult :=
  match dec data with
  | none => .ok (.raw data)
  | some v =>
    match v with
    | .obj fields =>
      match fields.lookup "error" with
      | some (.obj e) =>
        .ok (.err
          { kind :=
              if isOAuthType (e.lookup "type") then .oauth
              else .facebook
            message := e.lookup "message"
            code := e.lookup "code" })
      | some _ => .error (.attributeError "get")
      | none =>
        match fields.lookup "error_msg" with
        | some m =>
          .ok (.err
            { kind := .facebook
              message := some m
              code := fields.lookup "error_code" })
        | none => .ok (.value v)
    | _ => .ok (.value v)

end GraphAPI

/-- A value of the caller-supplied option mapping (`**options` / `**data`):
a string, a non-string scalar, a file-like object exposing `read` (tagged by
an identifier), or a list / tuple / set of further values. -/
inductive OptValue where
  | str : String → OptValue
  | int : Int → OptValue
  | bool : Bool → OptValue
  | file : Nat → OptValue
  | list : List OptValue → OptValue
  | tuple : List OptValue → OptValue
  | set : List OptValue → OptValue

/-- `isinstance(item, basestring)` at graph_api.py line 214. -/
def OptValue.isString : OptValue → Bool
  | .str _ => true
  | _ => false

/-- `hasattr(data[key], 'read')` at graph_api.py line 178: only the tagged
file-like values expose a `read` capability. -/
def OptValue.isFile : OptValue → Bool
  | .file _ => true
  | _ => false

/-- An option mapping: a Python dict from parameter name to value, with the
keys assumed unique. -/
abbrev Options : Type := List (String × OptValue)

/-- `','.join(data[key])` at graph_api.py line 215.  Only applied under the
guard that every element is a string; non-string elements (unreachable under
the guard) contribute the empty string. -/
def commaJoin (xs : List OptValue) : String :=
  String.intercalate "," (xs.map fun v =>
    match v with
    | .str s => s
    | _ => "")

namespace GraphAPI

/-- graph_api.py lines 212-215, the per-value step of the option normalizer:
a list, tuple or set whose every element is a string is replaced by the
comma join of its elements; every other value is left as it is. -/
def normalizeValue : OptValue → OptValue
  | .list xs => if xs.all OptValue.isString then .str (commaJoin xs) else .list xs
  | .tuple xs => if xs.all OptValue.isString then .str (commaJoin xs) else .tuple xs
  | .set xs => if xs.all OptValue.isString then .str (commaJoin xs) else .set xs
  | v => v

/-- graph_api.py lines 211-215: the in-place loop `for key in data: ...`
rewrites each value of the mapping by `normalizeValue`, keeping the keys. -/
def normalizeOptions (data : Options) : Options :=
  data.map fun p => (p.1, normalizeValue p.2)

/-- Python dict assignment `data[key] = v`: overwrite the value when the key
is present, append the binding otherwise. -/
def setKey (data : Options) (key : String) (v : OptValue) : Options :=
  if data.any fun p => p.1 == key then
    data.map fun p => if p.1 == key then (key, v) else p
  else data ++ [(key, v)]

/-- graph_api.py lines 202-207: `del data[key]` for each of `offset`,
`until`, `since`, with `KeyError` passed over, i.e. the three keys are
removed from the mapping when present. -/
def stripPagingKeys (data : Options) : Options :=
  data.filter fun p => !(p.1 == "offset" || p.1 == "until" || p.1 == "since")

end GraphAPI

/-- The HTTP methods the library dispatches (graph_api.py line 166 and 174). -/
inductive Method where
  | GET : Method
  | POST : Method
  | PUT : Method
  | DELETE : Method

/-- The outcome of one call of the transport collaborator
`self.session.request(...)`: a response with raw body `content`, or a raised
`requests.RequestException` carrying `message`. -/
inductive TransportResult where
  | ok : String → TransportResult
  | exn : String → TransportResult

/-- The transport collaborator, indexed by the ordinal of the HTTP exchange
within the session so that the attempts of a retry loop and the pulls of a
page sequence may observe different responses.  It receives the method, the
target URL (a `JValue`, because page fetches after the first pass the decoded
`paging.next` value), the body/params mapping and the multipart file
mapping. -/
structure Env where
  transport : Nat → Method → JValue → Options → Options → TransportResult

namespace GraphAPI

/-- graph_api.py lines 175-182 inside `load`: for POST/PUT the entries whose
value exposes `read` move from the data mapping into the `files` mapping. -/
def partitionFiles (data : Options) : Options × Options :=
  (data.filter fun p => !p.2.isFile, data.filter fun p => p.2.isFile)

/-- graph_api.py lines 191-194: `result['paging']['next']`, with `KeyError`
and `TypeError` caught and turned into an absent cursor.  Only a parsed
mapping whose `paging` field is itself a mapping with a `next` key yields a
cursor; every other result (error object, raw text, list, scalar, mapping
without those fields) subscripts with `TypeError`/`KeyError` and gives
`none`. -/
def nextCursor : ParseResult → Option JValue
  | .value (.obj fields) =>
    match fields.lookup "paging" with
    | some (.obj p) => p.lookup "next"
    | _ => none
  | _ => none

/-- graph_api.py lines 165-196, the local `load` of `_query`: one transport
call followed by `_parse` and cursor extraction.

When the transport raises (lines 170-171 and 186-187), the source runs
`raise self.HTTPError(exception.message)`; `HTTPError` is neither imported
by graph_api.py (line 3) nor defined on `GraphAPI`, so evaluating
`self.HTTPError` raises `AttributeError` and that, not an `HTTPError`, is
what propagates.  An `AttributeError` from `_parse` (malformed `error`
field) propagates likewise. -/
def load (env : Env) (dec : String → Option JValue) (k : Nat) (method : Method)
    (url : JValue) (data : Options) : Except PyExc (ParseResult × Option JValue) :=
  let sent : Options × Options :=
    match method with
    | .POST => partitionFiles data
    | .PUT => partitionFiles data
    | _ => (data, [])
  match env.transport k method url sent.1 sent.2 with
  | .exn _message => .error (.attributeError "HTTPError")
  | .ok content =>
    match _parse dec content with
    | .error e => .error e
    | .ok result => .ok (result, nextCursor result)

/-- One step of the page sequence as observed by the consumer: a yielded
parsed result together with the option mapping that was passed to the
transport for that pull, or an exception raised out of the generator at that
pull (which ends the iteration). -/
inductive PageItem where
  | yielded : ParseResult → Options → PageItem
  | raised : PyExc → PageItem

/-- graph_api.py lines 198-209, the local `paginate` of `_query`: while the
URL is truthy, `load`, then remove `offset` / `until` / `since` from the
mapping before the next pull, then yield the result.  `fuel` bounds the
number of pulls forced out of the lazy generator; every claim proved below
terminates within its fuel. -/
def paginate (env : Env) (dec : String → Option JValue) (method : Method)
    (k : Nat) (url : Option JValue) (data : Options) (fuel : Nat) : List PageItem :=
  match fuel with
  | 0 => []
  | fuel' + 1 =>
    match url with
    | none => []
    | some u =>
      if jTruthy u then
        match load env dec k method u data with
        | .error e => [.raised e]
        | .ok (result, next) =>
          .yielded result data ::
            paginate env dec method (k + 1) next (stripPagingKeys data) fuel'
      else []

/-- graph_api.py line 217: `url = '%s/%s' % (self.url, path)`. -/
def mkUrl (base path : String) : String := base ++ "/" ++ path

/-- graph_api.py lines 211-220: normalize the option values, then inject the
held access token (when truthy) as `access_token`. -/
def prepare (oauth : Option String) (data : Options) : Options :=
  let d := normalizeOptions data
  match oauth with
  | some t => setKey d "access_token" (.str t)
  | none => d

/-- The suspended page generator returned by `_query` when `page` is set
(graph_api.py lines 222-223): creating it performs no HTTP exchange; its
captured state is the method, the URL and the prepared option mapping. -/
structure PageGen where
  method : Method
  url : String
  data : Options

/-- Forcing up to `fuel` pulls out of a suspended page generator. -/
def PageGen.run (env : Env) (dec : String → Option JValue) (g : PageGen)
    (fuel : Nat) : List PageItem :=
  paginate env dec g.method 0 (some (.str g.url)) g.data fuel

/-- The non-paged branch of `_query` (graph_api.py line 225):
`load(method, url, data)[0]`, after normalization and token injection. -/
def querySingle (env : Env) (dec : String → Option JValue) (oauth : Option String)
    (base : String) (method : Method) (path : String) (data : Options) (k : Nat) :
    Except PyExc ParseResult :=
  match load env dec k method (.str (mkUrl base path)) (prepare oauth data) with
  | .error e => .error e
  | .ok p => .ok p.1

/-- What `_query` hands back to the façade: a suspended page generator or
the single dispatched result. -/
inductive QueryOut where
  | pages : PageGen → QueryOut
  | single : Except PyExc ParseResult → QueryOut

/-- graph_api.py lines 152-225, `GraphAPI._query`: prepare the options and
either build the lazy `paginate` generator (performing no HTTP call) or
dispatch once through `load`.  `k` is the ordinal of the session's next HTTP
exchange. -/
def _query (env : Env) (dec : String → Option JValue) (oauth : Option String)
    (base : String) (method : Method) (path : String) (data : Options)
    (page : Bool) (k : Nat) : QueryOut :=
  if page then .pages ⟨method, mkUrl base path, prepare oauth data⟩
  else .single (querySingle env dec oauth base method path data k)

/-- The call `FacebookError(message)` with a single argument, as written at
graph_api.py lines 45, 63 and 77: `FacebookError.__init__(self, message, code)`
(exceptions.py line 8) has no default for `code`, so the call itself raises
`TypeError` before any error instance is constructed. -/
def facebookErrorOneArg (_message : String) : PyExc :=
  .typeError "__init__() takes exactly 3 arguments (2 given)"

/-- What `get` returns to the caller: the lazy page sequence, or the single
parsed result. -/
inductive GetOut where
  | pages : PageGen → GetOut
  | result : ParseResult → GetOut

/-- The non-retrying tail of `GraphAPI.get` (graph_api.py lines 35-47)
applied to what `_query` handed back: a page generator is returned as-is
with no dispatch; an exception raised out of `_query` propagates; a typed
error response with no retry budget left is raised; a response that
`is False` becomes the one-argument `FacebookError` call of line 45; any
other response is returned.  The second component counts the HTTP
dispatches of the step (0 for the lazy page branch, 1 otherwise). -/
def finishGet (path : String) : QueryOut → Except PyExc GetOut × Nat
  | .pages g => (.ok (.pages g), 0)
  | .single (.error e) => (.error e, 1)
  | .single (.ok (.err e)) => (.error (.fbError e), 1)
  | .single (.ok (.value (.bool false))) =>
    (.error (facebookErrorOneArg ("Could not get \"" ++ path ++ "\".")), 1)
  | .single (.ok r) => (.ok (.result r), 1)

/-- graph_api.py lines 23-47, `GraphAPI.get`, together with the count of
dispatch attempts performed.  The source dispatches through `_query`, and on
`isinstance(response, Exception)` recurses with `retry - 1` while
`retry > 1`, i.e. while `retry` is at least 2; with `retry` at 0 or 1 every
outcome is handled by the non-retrying tail.  Matching the budget before the
dispatch, as here, denotes the same function: both branches dispatch exactly
once before deciding. -/
def getAux (env : Env) (dec : String → Option JValue) (oauth : Option String)
    (base path : String) (page : Bool) (data : Options) :
    Nat → Nat → Except PyExc GetOut × Nat
  | 0, k => finishGet path (_query env dec oauth base .GET path data page k)
  | 1, k => finishGet path (_query env dec oauth base .GET path data page k)
  | r + 2, k =>
    match _query env dec oauth base .GET path data page k with
    | .single (.ok (.err _)) =>
      let rest := getAux env dec oauth base path page data (r + 1) (k + 1)
      (rest.1, rest.2 + 1)
    | q => finishGet path q

/-- `GraphAPI.get` as the caller sees it (the attempt count dropped),
starting at the session's first HTTP exchange. -/
def get (env : Env) (dec : String → Option JValue) (oauth : Option String)
    (base path : String) (page : Bool) (retry : Nat) (data : Options) :
    Except PyExc GetOut :=
  (getAux env dec oauth base path page data retry 0).1

/-- graph_api.py lines 49-65, `GraphAPI.post`: one non-paged dispatch; a
response that `is False` becomes the one-argument `FacebookError` call of
line 63. -/
def post (env : Env) (dec : String → Option JValue) (oauth : Option String)
    (base path : String) (data : Options) (k : Nat) : Except PyExc ParseResult :=
  match querySingle env dec oauth base .POST path data k with
  | .error e => .error e
  | .ok (.value (.bool false)) =>
    .error (facebookErrorOneArg ("Could not post to \"" ++ path ++ "\""))
  | .ok r => .ok r

/-- graph_api.py lines 67-79, `GraphAPI.delete`: one non-paged dispatch; a
response that `is False` becomes the one-argument `FacebookError` call of
line 77. -/
def delete (env : Env) (dec : String → Option JValue) (oauth : Option String)
    (base path : String) (k : Nat) : Except PyExc ParseResult :=
  match querySingle env dec oauth base .DELETE path [] k with
  | .error e => .error e
  | .ok (.value (.bool false)) =>
    .error (facebookErrorOneArg ("Could not delete \"" ++ path ++ "\""))
  | .ok r => .ok r

/-- `response['body']` followed by `json.loads` of it, as in
graph_api.py line 131: a non-mapping sub-response subscripts with
`TypeError`, a mapping without `body` raises `KeyError`, and a non-string
`body` makes `json.loads` raise `TypeError`; otherwise the body text is
handed to `_parse`. -/
def subResponseBody (resp : JValue) : Except PyExc String :=
  match resp with
  | .obj fields =>
    match fields.lookup "body" with
    | some (.str s) => .ok s
    | some _ => .error (.typeError "expected string or buffer")
    | none => .error (.keyError "body")
  | _ => .error (.typeError "unsubscriptable object")

/-- One item of the batch sequence: the `None` yielded for a falsy
sub-response, a yielded parsed result, a yielded typed error with the
originating request entry attached (`data.request = request`,
graph_api.py line 134), or an exception raised out of the generator at that
pull (which ends the iteration). -/
inductive BatchItem where
  | empty : BatchItem
  | item : ParseResult → BatchItem
  | errItem : FbError → JValue → BatchItem
  | raised : PyExc → BatchItem

/-- graph_api.py lines 122-139, the loop body of `batch` over
`zip(responses, requests)`: yield `None` for a falsy sub-response, otherwise
parse `response['body']`; a typed error is yielded with the request attached,
anything else is yielded as-is, and an uncaught exception ends the
sequence. -/
def batchAux (dec : String → Option JValue) :
    List (JValue × JValue) → List BatchItem
  | [] => []
  | (response, request) :: rest =>
    if jTruthy response then
      match subResponseBody response with
      | .error e => [.raised e]
      | .ok s =>
        match _parse dec s with
        | .error e => [.raised e]
        | .ok (.err fe) => .errItem fe request :: batchAux dec rest
        | .ok r => .item r :: batchAux dec rest
    else .empty :: batchAux dec rest

/-- graph_api.py lines 110-139, `GraphAPI.batch`, modelled on the decoded
inbound sub-response list (obtained in the source by `self.post` of the
serialized requests, line 118): `zip(responses, requests)` pairs the two
lists positionally, truncating at the shorter. -/
def batch (dec : String → Option JValue) (responses requests : List JValue) :
    List BatchItem :=
  batchAux dec (responses.zip requests)

/-- The yielding convention of the batch loop stated from the consumer's
side: a typed error is yielded with its originating request attached, every
other parsed result is yielded as-is. -/
def attachRequest (p : ParseResult) (request : JValue) : BatchItem :=
  match p with
  | .err e => .errItem e request
  | p => .item p

/-- A sub-response on which the batch loop neither raises nor crashes: a
falsy one, or one with a string `body` that `_parse` handles without
raising. -/
def goodEntry (dec : String → Option JValue) (resp : JValue) : Bool :=
  !jTruthy resp ||
    (match subResponseBody resp with
     | .ok s =>
       (match _parse dec s with
        | .ok _ => true
        | .error _ => false)
     | .error _ => false)

end GraphAPI

/-- The option-normalizer condition in the spec's words: a list, tuple or
set whose every element is a string.  Second definition kept deliberately
apart from `GraphAPI.normalizeValue` so the two can be compared. -/
def isStringCollection : OptValue → Bool
  | .list xs => xs.all OptValue.isString
  | .tuple xs => xs.all OptValue.isString
  | .set xs => xs.all OptValue.isString
  | _ => false

/-- The elements of a collection-valued option (empty for non-collections). -/
def collectionElems : OptValue → List OptValue
  | .list xs => xs
  | .tuple xs => xs
  | .set xs => xs
  | _ => []

/-- The option normalizer in the spec's words: replace each all-string
collection by the comma join of its elements, leave every other value
unchanged. -/
def normalizeValueSpec (v : OptValue) : OptValue :=
  if isStringCollection v then .str (commaJoin (collectionElems v)) else v

/-- Decoder table for the concrete witnesses: a finite stand-in for
`json.loads`, mapping each body text of the scenarios to its decoded
value. -/
def dec0 : String → Option JValue := fun s =>
  List.lookup s
    [("bOauthErr", .obj [("error",
        .obj [("type", .str "OAuthException"),
              ("message", .str "bad token"),
              ("code", .num 190)])]),
     ("bSrvErr", .obj [("error",
        .obj [("type", .str "GraphMethodException"),
              ("message", .str "oops"),
              ("code", .num 100)])]),
     ("bOk", .obj [("id", .str "42")]),
     ("false", .bool false),
     ("bPage1", .obj [("data", .arr [.str "p1"]),
                      ("paging", .obj [("next", .str "NEXT2")])]),
     ("bPage2", .obj [("data", .arr [.str "p2"])])]

/-- The typed error decoded from body `bSrvErr` of `dec0`. -/
def feSrv : FbError :=
  { kind := .facebook, message := some (.str "oops"), code := some (.num 100) }

/-- The typed error decoded from body `bOauthErr` of `dec0`. -/
def feOauth : FbError :=
  { kind := .oauth, message := some (.str "bad token"), code := some (.num 190) }

/-- A transport on which every exchange raises a `requests.RequestException`. -/
def envDown : Env := ⟨fun _ _ _ _ _ => .exn "Connection refused"⟩

/-- A transport on which every exchange returns the body `false`. -/
def envFalse : Env := ⟨fun _ _ _ _ _ => .ok "false"⟩

/-- A transport whose first two exchanges return a service-error body and
whose third returns a success body. -/
def envRetry : Env :=
  ⟨fun k _ _ _ _ =>
    match k with
    | 0 => .ok "bSrvErr"
    | 1 => .ok "bSrvErr"
    | _ => .ok "bOk"⟩

/-- A transport whose first exchange returns a page with a `paging.next`
cursor and whose second returns a page without one. -/
def envPage : Env :=
  ⟨fun k _ _ _ _ =>
    match k with
    | 0 => .ok "bPage1"
    | _ => .ok "bPage2"⟩

theorem isOAuthType_iff (v : Option JValue) :
    isOAuthType v = true ↔ v = some (.str "OAuthException") := by
  rcases v with _ | w
  · simp [isOAuthType]
  · cases w <;> simp [isOAuthType]

theorem parse_error_shape (dec : String → Option JValue) (s : String)
    (fields e : List (String × JValue))
    (h1 : dec s = some (.obj fields))
    (h2 : fields.lookup "error" = some (.obj e)) :
    GraphAPI._parse dec s = .ok (.err
      { kind := if isOAuthType (e.lookup "type") then .oauth else .facebook,
        message := e.lookup "message", code := e.lookup "code" }) := by
  simp [GraphAPI._parse, h1, h2]

theorem normalizeValue_eq_spec (v : OptValue) :
    GraphAPI.normalizeValue v = normalizeValueSpec v := by
  cases v <;>
    simp [GraphAPI.normalizeValue, normalizeValueSpec, isStringCollection,
      collectionElems]

/-- C5: for every option mapping, the normalizer replaces each value that is
a list, tuple or set consisting entirely of strings by the comma join of its
elements and leaves every other value (scalars, file-like values, mixed
collections) unchanged: key-wise it coincides with the normalizer written
from the spec's words. -/
theorem normalize_options_spec (data : Options) :
    GraphAPI.normalizeOptions data
      = data.map fun p => (p.1, normalizeValueSpec p.2) := by
  simp only [GraphAPI.normalizeOptions, normalizeValue_eq_spec]

/-- C3: for every response body decoding to a mapping with an `error` field
holding a mapping `e`, the parser returns an OAuth error exactly when `e`'s
`type` subfield equals the string `OAuthException` and a service error
otherwise, with message `e`'s `message` subfield and code `e`'s `code`
subfield (absent when missing). -/
theorem parse_error_field_taxonomy (dec : String → Option JValue) (s : String)
    (fields e : List (String × JValue))
    (h1 : dec s = some (.obj fields))
    (h2 : fields.lookup "error" = some (.obj e)) :
    (e.lookup "type" = some (.str "OAuthException") →
      GraphAPI._parse dec s
        = .ok (.err ⟨.oauth, e.lookup "message", e.lookup "code"⟩)) ∧
    (e.lookup "type" ≠ some (.str "OAuthException") →
      GraphAPI._parse dec s
        = .ok (.err ⟨.facebook, e.lookup "message", e.lookup "code"⟩)) := by
  have h := parse_error_shape dec s fields e h1 h2
  constructor
  · intro ht
    rw [h, if_pos ((isOAuthType_iff _).2 ht)]
  · intro ht
    have hb : isOAuthType (e.lookup "type") = false := by
      cases hb : isOAuthType (e.lookup "type")
      · rfl
      · exact absurd ((isOAuthType_iff _).1 hb) ht
    rw [h]
    simp [hb]

/-- Witness for C3 at the OAuth-shaped body of the decoder table. -/
theorem parse_error_field_taxonomy_witness :
    dec0 "bOauthErr" = some (.obj [("error",
        .obj [("type", .str "OAuthException"),
              ("message", .str "bad token"),
              ("code", .num 190)])]) ∧
    GraphAPI._parse dec0 "bOauthErr" = .ok (.err feOauth) :=
  ⟨rfl, (parse_error_field_taxonomy dec0 "bOauthErr" _ _ rfl rfl).1 rfl⟩

/-- C8: parsing is deterministic; any two parses of the same body against the
same decoder give equal results, in particular equal typed error values for
an error-shaped body. -/
theorem parse_idempotent (dec : String → Option JValue) (s : String)
    (r r' : Except PyExc ParseResult)
    (h : GraphAPI._parse dec s = r) (h' : GraphAPI._parse dec s = r') :
    r = r' :=
  h.symm.trans h'

/-- Witness for C8: two parses of the error-shaped body `bSrvErr` both give
the same typed error value. -/
theorem parse_idempotent_witness :
    GraphAPI._parse dec0 "bSrvErr" = .ok (.err feSrv) ∧
    (Except.ok (ParseResult.err feSrv) : Except PyExc ParseResult)
      = .ok (.err feSrv) :=
  ⟨rfl, parse_idempotent dec0 "bSrvErr" _ _ rfl rfl⟩

/-- C1, against the code as written: when the transport raises on the k-th
exchange, `load` raises `AttributeError` -- because `self.HTTPError` is not
an attribute of `GraphAPI` -- and in particular the caller observes neither
the raw transport exception nor the intended `HTTPError`. -/
theorem transport_failure_never_raises_http_error
    (env : Env) (dec : String → Option JValue) (k : Nat) (method : Method)
    (url : JValue) (data : Options) (msg : String)
    (h : ∀ d f : Options, env.transport k method url d f = .exn msg) :
    GraphAPI.load env dec k method url data
      = .error (.attributeError "HTTPError") ∧
    ∀ m, GraphAPI.load env dec k method url data ≠ .error (.httpError m) := by
  have hl : GraphAPI.load env dec k method url data
      = .error (.attributeError "HTTPError") := by
    unfold GraphAPI.load
    cases method <;> simp [h]
  refine ⟨hl, fun m hc => ?_⟩
  rw [hl] at hc
  exact PyExc.noConfusion (Except.error.inj hc)

/-- Witness for C1: a concrete GET dispatch over a transport that raises. -/
theorem transport_failure_never_raises_http_error_witness :
    envDown.transport 0 .GET (.str "/me") [] [] = .exn "Connection refused" ∧
    GraphAPI.load envDown dec0 0 .GET (.str "/me") []
      = .error (.attributeError "HTTPError") :=
  ⟨rfl, (transport_failure_never_raises_http_error envDown dec0 0 .GET
      (.str "/me") [] "Connection refused" (fun _ _ => rfl)).1⟩

/-- C7, against the code as written: a dispatched body that decodes to the
literal `false` makes `get`, `post` and `delete` call `FacebookError` with a
single argument, which raises `TypeError` (its `__init__` requires a code),
so the caller observes a `TypeError`, not the intended service error. -/
theorem bare_false_raises_type_error :
    GraphAPI.getAux envFalse dec0 none "" "me" false [] 3 0
      = (.error (.typeError "__init__() takes exactly 3 arguments (2 given)"), 1) ∧
    GraphAPI.post envFalse dec0 none "" "me" [] 0
      = .error (.typeError "__init__() takes exactly 3 arguments (2 given)") ∧
    GraphAPI.delete envFalse dec0 none "" "me" 0
      = .error (.typeError "__init__() takes exactly 3 arguments (2 given)") :=
  ⟨rfl, rfl, rfl⟩

theorem finishGet_ok (path : String) (r : ParseResult)
    (hne : ∀ e, r ≠ .err e) (hnf : r ≠ .value (.bool false)) :
    GraphAPI.finishGet path (.single (.ok r)) = (.ok (.result r), 1) := by
  rcases r with s | v | e
  · rfl
  · rcases v with _ | b | n | s | xs | fs
    · rfl
    · cases b
      · exact absurd rfl hnf
      · rfl
    · rfl
    · rfl
    · rfl
    · rfl
  · exact absurd rfl (hne e)

theorem getAux_step_retry (env : Env) (dec : String → Option JValue)
    (oauth : Option String) (base path : String) (data : Options)
    (r k : Nat) (e : FbError)
    (h : GraphAPI.querySingle env dec oauth base .GET path data k = .ok (.err e)) :
    GraphAPI.getAux env dec oauth base path false data (r + 2) k
      = ((GraphAPI.getAux env dec oauth base path false data (r + 1) (k + 1)).1,
         (GraphAPI.getAux env dec oauth base path false data (r + 1) (k + 1)).2 + 1) := by
  simp only [GraphAPI.getAux, GraphAPI._query, Bool.false_eq_true, if_false, h]

theorem getAux_step_last (env : Env) (dec : String → Option JValue)
    (oauth : Option String) (base path : String) (data : Options)
    (k : Nat) (e : FbError)
    (h : GraphAPI.querySingle env dec oauth base .GET path data k = .ok (.err e)) :
    GraphAPI.getAux env dec oauth base path false data 1 k
      = (.error (.fbError e), 1) := by
  simp only [GraphAPI.getAux, GraphAPI._query, Bool.false_eq_true, if_false, h]
  rfl

theorem getAux_step_ok (env : Env) (dec : String → Option JValue)
    (oauth : Option String) (base path : String) (data : Options)
    (retry k : Nat) (r : ParseResult)
    (h : GraphAPI.querySingle env dec oauth base .GET path data k = .ok r)
    (hne : ∀ e, r ≠ .err e) (hnf : r ≠ .value (.bool false)) :
    GraphAPI.getAux env dec oauth base path false data retry k
      = (.ok (.result r), 1) := by
  have hf := finishGet_ok path r hne hnf
  match retry with
  | 0 =>
    simp only [GraphAPI.getAux, GraphAPI._query, Bool.false_eq_true, if_false, h, hf]
  | 1 =>
    simp only [GraphAPI.getAux, GraphAPI._query, Bool.false_eq_true, if_false, h, hf]
  | n + 2 =>
    simp only [GraphAPI.getAux, GraphAPI._query, Bool.false_eq_true, if_false, h]
    rcases r with s | v | e
    · exact hf
    · rcases v with _ | b | m | s | xs | fs
      · exact hf
      · cases b
        · exact absurd rfl hnf
        · exact hf
      · exact hf
      · exact hf
      · exact hf
      · exact hf
    · exact absurd rfl (hne e)

/-- C2: on the default budget of 3, when the first two dispatches of a
non-paged `get` parse to typed errors, a third that parses to a non-error,
non-`false` result is returned to the caller after exactly 3 dispatch
attempts; and when the third parses to a typed error too, that last error is
raised, again after exactly 3 attempts. -/
theorem get_retry_budget (env : Env) (dec : String → Option JValue)
    (oauth : Option String) (base path : String) (data : Options)
    (e0 e1 : FbError)
    (h0 : GraphAPI.querySingle env dec oauth base .GET path data 0 = .ok (.err e0))
    (h1 : GraphAPI.querySingle env dec oauth base .GET path data 1 = .ok (.err e1)) :
    (∀ r : ParseResult,
        GraphAPI.querySingle env dec oauth base .GET path data 2 = .ok r →
        (∀ e, r ≠ .err e) → r ≠ .value (.bool false) →
        GraphAPI.getAux env dec oauth base path false data 3 0
          = (.ok (.result r), 3)) ∧
    (∀ e2 : FbError,
        GraphAPI.querySingle env dec oauth base .GET path data 2 = .ok (.err e2) →
        GraphAPI.getAux env dec oauth base path false data 3 0
          = (.error (.fbError e2), 3)) := by
  have s1 : GraphAPI.getAux env dec oauth base path false data 3 0
      = ((GraphAPI.getAux env dec oauth base path false data 2 1).1,
         (GraphAPI.getAux env dec oauth base path false data 2 1).2 + 1) :=
    getAux_step_retry env dec oauth base path data 1 0 e0 h0
  have s2 : GraphAPI.getAux env dec oauth base path false data 2 1
      = ((GraphAPI.getAux env dec oauth base path false data 1 2).1,
         (GraphAPI.getAux env dec oauth base path false data 1 2).2 + 1) :=
    getAux_step_retry env dec oauth base path data 0 1 e1 h1
  constructor
  · intro r h2 hne hnf
    have s3 := getAux_step_ok env dec oauth base path data 1 2 r h2 hne hnf
    simp [s1, s2, s3]
  · intro e2 h2
    have s3 := getAux_step_last env dec oauth base path data 2 e2 h2
    simp [s1, s2, s3]

/-- Witness for C2: two service-error bodies then a success body give the
success after exactly 3 dispatches. -/
theorem get_retry_budget_witness :
    GraphAPI.querySingle envRetry dec0 none "" .GET "me" [] 0 = .ok (.err feSrv) ∧
    GraphAPI.querySingle envRetry dec0 none "" .GET "me" [] 2
      = .ok (.value (.obj [("id", .str "42")])) ∧
    GraphAPI.getAux envRetry dec0 none "" "me" false [] 3 0
      = (.ok (.result (.value (.obj [("id", .str "42")]))), 3) :=
  ⟨rfl, rfl,
    (get_retry_budget envRetry dec0 none "" "me" [] feSrv feSrv rfl rfl).1
      (.value (.obj [("id", .str "42")])) rfl
      (fun _ hc => ParseResult.noConfusion hc)
      (fun hc => JValue.noConfusion (ParseResult.value.inj hc))⟩

theorem getAux_pages (env : Env) (dec : String → Option JValue)
    (oauth : Option String) (base path : String) (data : Options)
    (retry k : Nat) :
    GraphAPI.getAux env dec oauth base path true data retry k
      = (.ok (.pages ⟨.GET, GraphAPI.mkUrl base path,
                      GraphAPI.prepare oauth data⟩), 0) := by
  match retry with
  | 0 => simp [GraphAPI.getAux, GraphAPI._query, GraphAPI.finishGet]
  | 1 => simp [GraphAPI.getAux, GraphAPI._query, GraphAPI.finishGet]
  | r + 2 => simp [GraphAPI.getAux, GraphAPI._query, GraphAPI.finishGet]

theorem paginate_none (env : Env) (dec : String → Option JValue)
    (method : Method) (k : Nat) (data : Options) (fuel : Nat) :
    GraphAPI.paginate env dec method k none data fuel = [] := by
  cases fuel <;> simp [GraphAPI.paginate]

theorem paginate_step (env : Env) (dec : String → Option JValue)
    (method : Method) (k : Nat) (u : JValue) (data : Options) (fuel : Nat)
    (r : ParseResult) (next : Option JValue)
    (hu : jTruthy u = true)
    (hl : GraphAPI.load env dec k method u data = .ok (r, next)) :
    GraphAPI.paginate env dec method k (some u) data (fuel + 1)
      = .yielded r data ::
        GraphAPI.paginate env dec method (k + 1) next
          (GraphAPI.stripPagingKeys data) fuel := by
  simp [GraphAPI.paginate, hu, hl]

theorem mkUrl_truthy (base path : String) :
    jTruthy (.str (GraphAPI.mkUrl base path)) = true := by
  have h : (GraphAPI.mkUrl base path).length
      = base.length + "/".length + path.length := by
    simp [GraphAPI.mkUrl, String.length_append]
  have h1 : "/".length = 1 := rfl
  simp only [jTruthy, h, h1, bne_iff_ne, ne_eq]
  omega

theorem stripPagingKeys_lookup (data : Options) (key : String)
    (hk : key = "offset" ∨ key = "until" ∨ key = "since") :
    (GraphAPI.stripPagingKeys data).lookup key = none := by
  induction data with
  | nil => rfl
  | cons p t ih =>
    rcases p with ⟨k', v⟩
    show (List.filter _ ((k', v) :: t)).lookup key = none
    rw [List.filter_cons]
    by_cases hpred :
        (!((k', v).1 == "offset" || (k', v).1 == "until" || (k', v).1 == "since"))
          = true
    · rw [if_pos hpred]
      have hp' := hpred
      simp only [Bool.not_eq_true', Bool.or_eq_false_iff] at hp'
      have hne : (key == k') = false := by
        rcases hk with h | h | h <;> subst h
        · exact beq_eq_false_iff_ne.mpr
            (Ne.symm (beq_eq_false_iff_ne.mp hp'.1.1))
        · exact beq_eq_false_iff_ne.mpr
            (Ne.symm (beq_eq_false_iff_ne.mp hp'.1.2))
        · exact beq_eq_false_iff_ne.mpr
            (Ne.symm (beq_eq_false_iff_ne.mp hp'.2))
      simp only [List.lookup, hne]
      exact ih
    · rw [if_neg hpred]
      exact ih

/-- C9: requesting paging makes `get` return the suspended page sequence at
once, with zero dispatch attempts and independently of the transport's
behaviour, so neither the typed-error retry loop nor the bare-`false`
conversion can apply to it; and a pull of the sequence whose parsed result
is a typed error yields that error as a data item of the sequence -- the
generator neither raises nor retries it -- after which the sequence ends
(an error result carries no `paging.next` cursor). -/
theorem paged_get_lazy_and_error_items (env : Env) (dec : String → Option JValue)
    (oauth : Option String) (base path : String) (data : Options)
    (retry k : Nat) :
    GraphAPI.getAux env dec oauth base path true data retry k
      = (.ok (.pages ⟨.GET, GraphAPI.mkUrl base path,
                      GraphAPI.prepare oauth data⟩), 0) ∧
    ∀ (u : JValue) (d : Options) (j fuel : Nat) (e : FbError),
      jTruthy u = true →
      GraphAPI.load env dec j .GET u d = .ok (.err e, none) →
      GraphAPI.paginate env dec .GET j (some u) d (fuel + 1)
        = [.yielded (.err e) d] := by
  refine ⟨getAux_pages env dec oauth base path data retry k, ?_⟩
  intro u d j fuel e hu hl
  rw [paginate_step env dec .GET j u d fuel (.err e) none hu hl,
    paginate_none]

/-- Witness for C9: on the retrying transport, the paged `get` returns the
generator with 0 attempts, and the first pull yields the service error as an
item. -/
theorem paged_get_lazy_and_error_items_witness :
    GraphAPI.getAux envRetry dec0 none "" "me" true [] 3 0
      = (.ok (.pages ⟨.GET, "/me", []⟩), 0) ∧
    GraphAPI.load envRetry dec0 0 .GET (.str "/me") [] = .ok (.err feSrv, none) ∧
    GraphAPI.paginate envRetry dec0 .GET 0 (some (.str "/me")) [] 5
      = [.yielded (.err feSrv) []] := by
  have h := paged_get_lazy_and_error_items envRetry dec0 none "" "me" [] 3 0
  exact ⟨h.1, rfl, h.2 (.str "/me") [] 0 4 feSrv rfl rfl⟩

/-- C4: a paged `get` whose first pull carries a truthy `paging.next` cursor
and whose second pull carries none yields exactly the two parsed results and
terminates; the option mapping used for the second pull is the first one
with `offset`, `until` and `since` removed, and contains none of those three
keys. -/
theorem paged_get_two_pages (env : Env) (dec : String → Option JValue)
    (oauth : Option String) (base path : String) (data0 : Options)
    (retry n : Nat) (r1 r2 : ParseResult) (u2 : JValue)
    (h1 : GraphAPI.load env dec 0 .GET (.str (GraphAPI.mkUrl base path))
            (GraphAPI.prepare oauth data0) = .ok (r1, some u2))
    (h2 : jTruthy u2 = true)
    (h3 : GraphAPI.load env dec 1 .GET u2
            (GraphAPI.stripPagingKeys (GraphAPI.prepare oauth data0))
          = .ok (r2, none)) :
    GraphAPI.get env dec oauth base path true retry data0
      = .ok (.pages ⟨.GET, GraphAPI.mkUrl base path,
                     GraphAPI.prepare oauth data0⟩) ∧
    GraphAPI.PageGen.run env dec
        ⟨.GET, GraphAPI.mkUrl base path, GraphAPI.prepare oauth data0⟩ (n + 2)
      = [.yielded r1 (GraphAPI.prepare oauth data0),
         .yielded r2 (GraphAPI.stripPagingKeys (GraphAPI.prepare oauth data0))] ∧
    ∀ key, (key = "offset" ∨ key = "until" ∨ key = "since") →
      (GraphAPI.stripPagingKeys (GraphAPI.prepare oauth data0)).lookup key
        = none := by
  refine ⟨?_, ?_, fun key hk =>
    stripPagingKeys_lookup (GraphAPI.prepare oauth data0) key hk⟩
  · show (GraphAPI.getAux env dec oauth base path true data0 retry 0).1 = _
    rw [getAux_pages]
  · have p1 : GraphAPI.paginate env dec .GET 0
        (some (.str (GraphAPI.mkUrl base path)))
        (GraphAPI.prepare oauth data0) (n + 2)
        = .yielded r1 (GraphAPI.prepare oauth data0) ::
          GraphAPI.paginate env dec .GET 1 (some u2)
            (GraphAPI.stripPagingKeys (GraphAPI.prepare oauth data0)) (n + 1) :=
      paginate_step env dec .GET 0 (.str (GraphAPI.mkUrl base path))
        (GraphAPI.prepare oauth data0) (n + 1) r1 (some u2)
        (mkUrl_truthy base path) h1
    have p2 : GraphAPI.paginate env dec .GET 1 (some u2)
        (GraphAPI.stripPagingKeys (GraphAPI.prepare oauth data0)) (n + 1)
        = .yielded r2 (GraphAPI.stripPagingKeys (GraphAPI.prepare oauth data0)) ::
          GraphAPI.paginate env dec .GET 2 none
            (GraphAPI.stripPagingKeys
              (GraphAPI.stripPagingKeys (GraphAPI.prepare oauth data0))) n :=
      paginate_step env dec .GET 1 u2
        (GraphAPI.stripPagingKeys (GraphAPI.prepare oauth data0)) n r2 none h2 h3
    show GraphAPI.paginate env dec .GET 0
        (some (.str (GraphAPI.mkUrl base path)))
        (GraphAPI.prepare oauth data0) (n + 2) = _
    rw [p1, p2, paginate_none]

/-- Witness for C4: a concrete two-page sequence over the paging transport,
with a `until` key removed before the second pull. -/
theorem paged_get_two_pages_witness :
    GraphAPI.load envPage dec0 0 .GET (.str "/me")
        (GraphAPI.prepare none [("until", .str "999")])
      = .ok (.value (.obj [("data", .arr [.str "p1"]),
                           ("paging", .obj [("next", .str "NEXT2")])]),
             some (.str "NEXT2")) ∧
    GraphAPI.PageGen.run envPage dec0 ⟨.GET, "/me", [("until", .str "999")]⟩ 5
      = [.yielded (.value (.obj [("data", .arr [.str "p1"]),
                                 ("paging", .obj [("next", .str "NEXT2")])]))
           [("until", .str "999")],
         .yielded (.value (.obj [("data", .arr [.str "p2"])])) []] := by
  have h := paged_get_two_pages envPage dec0 none "" "me"
      [("until", .str "999")] 3 3
      (.value (.obj [("data", .arr [.str "p1"]),
                     ("paging", .obj [("next", .str "NEXT2")])]))
      (.value (.obj [("data", .arr [.str "p2"])])) (.str "NEXT2") rfl rfl rfl
  exact ⟨rfl, h.2.1⟩

theorem subResponseBody_truthy (r : JValue) (s : String)
    (h : GraphAPI.subResponseBody r = .ok s) : jTruthy r = true := by
  rcases r with _ | b | n | t | xs | fields
  case obj =>
    cases fields with
    | nil => simp [GraphAPI.subResponseBody, List.lookup] at h
    | cons p t => simp [jTruthy]
  all_goals simp [GraphAPI.subResponseBody] at h

theorem batchAux_cons_ok (dec : String → Option JValue) (resp req : JValue)
    (t : List (JValue × JValue)) (s : String) (r : ParseResult)
    (htr : jTruthy resp = true)
    (hsb : GraphAPI.subResponseBody resp = .ok s)
    (hps : GraphAPI._parse dec s = .ok r) :
    GraphAPI.batchAux dec ((resp, req) :: t)
      = GraphAPI.attachRequest r req :: GraphAPI.batchAux dec t := by
  rcases r with s' | v | fe <;>
    simp [GraphAPI.batchAux, GraphAPI.attachRequest, htr, hsb, hps]

theorem batchAux_cons_falsy (dec : String → Option JValue) (resp req : JValue)
    (t : List (JValue × JValue)) (h : jTruthy resp = false) :
    GraphAPI.batchAux dec ((resp, req) :: t)
      = .empty :: GraphAPI.batchAux dec t := by
  simp [GraphAPI.batchAux, h]

theorem attachRequest_ne_raised (r : ParseResult) (q : JValue) (e : PyExc) :
    GraphAPI.attachRequest r q ≠ .raised e := by
  rcases r with s | v | fe <;> simp [GraphAPI.attachRequest]

/-- C6: a batch of 3 requests whose 2nd inbound sub-response is falsy yields
exactly 3 items in order -- the parsed 1st result, the empty marker, the
parsed 3rd result -- where a parsed result that is a typed error is yielded
with its originating request entry attached (`attachRequest`). -/
theorem batch_three_empty_second (dec : String → Option JValue)
    (r1 r2 r3 q1 q2 q3 : JValue) (s1 s3 : String) (p1 p3 : ParseResult)
    (h2 : jTruthy r2 = false)
    (hb1 : GraphAPI.subResponseBody r1 = .ok s1)
    (hb3 : GraphAPI.subResponseBody r3 = .ok s3)
    (hp1 : GraphAPI._parse dec s1 = .ok p1)
    (hp3 : GraphAPI._parse dec s3 = .ok p3) :
    GraphAPI.batch dec [r1, r2, r3] [q1, q2, q3]
      = [GraphAPI.attachRequest p1 q1, .empty, GraphAPI.attachRequest p3 q3] := by
  have ht1 := subResponseBody_truthy r1 s1 hb1
  have ht3 := subResponseBody_truthy r3 s3 hb3
  show GraphAPI.batchAux dec [(r1, q1), (r2, q2), (r3, q3)] = _
  rw [batchAux_cons_ok dec r1 q1 _ s1 p1 ht1 hb1 hp1,
    batchAux_cons_falsy dec r2 q2 _ h2,
    batchAux_cons_ok dec r3 q3 _ s3 p3 ht3 hb3 hp3]
  rfl

/-- Witness for C6: a concrete 3-request batch whose 2nd sub-response is
`null`, whose 1st parses to data and whose 3rd parses to a service error
that comes out with its request attached. -/
theorem batch_three_empty_second_witness :
    jTruthy JValue.null = false ∧
    GraphAPI.batch dec0
        [.obj [("code", .num 200), ("body", .str "bOk")], .null,
         .obj [("body", .str "bSrvErr")]]
        [.str "q1", .str "q2", .str "q3"]
      = [.item (.value (.obj [("id", .str "42")])), .empty,
         .errItem feSrv (.str "q3")] :=
  ⟨rfl,
    batch_three_empty_second dec0
      (.obj [("code", .num 200), ("body", .str "bOk")]) .null
      (.obj [("body", .str "bSrvErr")])
      (.str "q1") (.str "q2") (.str "q3") "bOk" "bSrvErr"
      (.value (.obj [("id", .str "42")])) (.err feSrv)
      rfl rfl rfl rfl rfl⟩

theorem batchAux_good (dec : String → Option JValue)
    (l : List (JValue × JValue))
    (h : ∀ p ∈ l, GraphAPI.goodEntry dec p.1 = true) :
    (GraphAPI.batchAux dec l).length = l.length ∧
    (∀ e, GraphAPI.BatchItem.raised e ∉ GraphAPI.batchAux dec l) ∧
    ∀ i pr, l.get? i = some pr → jTruthy pr.1 = false →
      (GraphAPI.batchAux dec l).get? i = some GraphAPI.BatchItem.empty := by
  induction l with
  | nil =>
    refine ⟨rfl, ?_, ?_⟩
    · intro e he
      simp [GraphAPI.batchAux] at he
    · intro i pr hi
      simp at hi
  | cons p t ih =>
    have hp := h p (List.mem_cons_self p t)
    have ht : ∀ q ∈ t, GraphAPI.goodEntry dec q.1 = true :=
      fun q hq => h q (List.mem_cons_of_mem p hq)
    obtain ⟨ihl, ihr, ihe⟩ := ih ht
    rcases p with ⟨resp, req⟩
    rcases htr : jTruthy resp with _ | _
    · have heq := batchAux_cons_falsy dec resp req t htr
      refine ⟨by rw [heq]; simp [ihl], ?_, ?_⟩
      · intro e he
        rw [heq] at he
        rcases List.mem_cons.mp he with hX | he'
        · exact GraphAPI.BatchItem.noConfusion hX
        · exact ihr e he'
      · intro i pr hi hfal
        cases i with
        | zero =>
          rw [heq]
          rfl
        | succ j =>
          rw [heq]
          simp only [List.get?_cons_succ] at hi ⊢
          exact ihe j pr hi hfal
    · have hg := hp
      simp only [GraphAPI.goodEntry, htr, Bool.not_true, Bool.false_or] at hg
      rcases hsb : GraphAPI.subResponseBody resp with e | s
      · simp only [hsb] at hg
        exact Bool.noConfusion hg
      · simp only [hsb] at hg
        rcases hps : GraphAPI._parse dec s with e | r
        · simp only [hps] at hg
          exact Bool.noConfusion hg
        · have heq := batchAux_cons_ok dec resp req t s r htr hsb hps
          refine ⟨by rw [heq]; simp [ihl], ?_, ?_⟩
          · intro e he
            rw [heq] at he
            rcases List.mem_cons.mp he with hX | he'
            · exact absurd hX.symm (attachRequest_ne_raised r req e)
            · exact ihr e he'
          · intro i pr hi hfal
            cases i with
            | zero =>
              simp only [List.get?_cons_zero, Option.some.injEq] at hi
              rw [← hi] at hfal
              simp [htr] at hfal
            | succ j =>
              rw [heq]
              simp only [List.get?_cons_succ] at hi ⊢
              exact ihe j pr hi hfal

/-- C10: on sub-responses the loop can handle, the batch yields exactly
`min` of the two list lengths many items -- sub-responses beyond the request
list and requests beyond the sub-response list are dropped silently, with no
raised item -- and every falsy inbound entry (not only an absent one) is
yielded as the empty marker at its position. -/
theorem batch_length_min (dec : String → Option JValue)
    (responses requests : List JValue)
    (h : responses.all (GraphAPI.goodEntry dec) = true) :
    (GraphAPI.batch dec responses requests).length
      = min responses.length requests.length ∧
    (∀ e, GraphAPI.BatchItem.raised e ∉ GraphAPI.batch dec responses requests) ∧
    ∀ i pr, (responses.zip requests).get? i = some pr →
      jTruthy pr.1 = false →
      (GraphAPI.batch dec responses requests).get? i
        = some GraphAPI.BatchItem.empty := by
  have hz : ∀ p ∈ responses.zip requests, GraphAPI.goodEntry dec p.1 = true :=
    fun p hp => List.all_eq_true.mp h p.1 (List.of_mem_zip hp).1
  obtain ⟨hl, hr, he⟩ := batchAux_good dec (responses.zip requests) hz
  refine ⟨?_, hr, he⟩
  show (GraphAPI.batchAux dec (responses.zip requests)).length = _
  rw [hl, List.length_zip]

/-- Witness for C10: 2 well-formed sub-responses (the 2nd falsy) against 3
requests yield exactly 2 items. -/
theorem batch_length_min_witness :
    ([JValue.obj [("body", .str "bOk")], JValue.str ""].all
        (GraphAPI.goodEntry dec0)) = true ∧
    (GraphAPI.batch dec0 [.obj [("body", .str "bOk")], .str ""]
        [.str "q1", .str "q2", .str "q3"]).length = min 2 3 :=
  ⟨rfl,
    (batch_length_min dec0 [.obj [("body", .str "bOk")], .str ""]
      [.str "q1", .str "q2", .str "q3"] rfl).1⟩

end Facepy
